import Mathlib

/-!
Verification of the aras-auth core against its specification.

The definitions below are a shallow embedding of the Go source:
  * RBAC permission resolution: internal/repository/postgres
    PermissionRepository.CheckUserPermission (the two-path UNION ALL query).
  * Provider registry: internal/provider ProviderRegistry.
  * Local identity provider: internal/provider/local LocalProvider.
  * Token service: internal/service JWTService (wrapper) together with the
    postgres TokenRepository and the usecase AuthUseCase.RefreshToken.
UUIDs are modelled as natural numbers drawn from a fresh counter, time as
epoch seconds (Nat), and the SHA-256 hex digest as an injective symbolic
constructor.  The pkg/jwt signing layer is not part of the sources and is
modelled from the specification where noted.
-/

namespace ArasAuth

/-! ## RBAC data model (domain + SQL tables used by CheckUserPermission) -/

/-- A row of the permissions table (columns used by the permission check). -/
structure Permission where
  id : Nat
  resource : String
  action : String
  isActive : Bool
  isDeleted : Bool
deriving DecidableEq, Repr

/-- A row of the roles table (columns used by the permission check). -/
structure Role where
  id : Nat
  isActive : Bool
  isDeleted : Bool
deriving DecidableEq, Repr

/-- A row of the groups table (columns used by the permission check). -/
structure Group where
  id : Nat
  isActive : Bool
  isDeleted : Bool
deriving DecidableEq, Repr

/-- A row of the user_roles join table. -/
structure UserRole where
  userId : Nat
  roleId : Nat
deriving DecidableEq, Repr

/-- A row of the user_groups join table. -/
structure UserGroup where
  userId : Nat
  groupId : Nat
deriving DecidableEq, Repr

/-- A row of the group_roles join table. -/
structure GroupRole where
  groupId : Nat
  roleId : Nat
deriving DecidableEq, Repr

/-- A row of the role_permissions join table. -/
structure RolePermission where
  roleId : Nat
  permissionId : Nat
deriving DecidableEq, Repr

/-- The database state visible to PermissionRepository.CheckUserPermission. -/
structure PermDB where
  permissions : List Permission
  roles : List Role
  groups : List Group
  userRoles : List UserRole
  userGroups : List UserGroup
  groupRoles : List GroupRole
  rolePermissions : List RolePermission
deriving DecidableEq, Repr

/-- First subquery of CheckUserPermission: COUNT(*) > 0 over the join
permissions × role_permissions × roles × user_roles with the WHERE filters
of the direct-role path. -/
def directGrant (db : PermDB) (userID : Nat) (resource action : String) : Bool :=
  db.permissions.any fun p =>
    db.rolePermissions.any fun rp =>
      db.roles.any fun r =>
        db.userRoles.any fun ur =>
          p.id == rp.permissionId && rp.roleId == r.id && r.id == ur.roleId &&
          ur.userId == userID && p.resource == resource && p.action == action &&
          p.isDeleted == false && p.isActive == true &&
          r.isDeleted == false && r.isActive == true

/-- Second subquery of CheckUserPermission: COUNT(*) > 0 over the join
permissions × role_permissions × roles × group_roles × groups × user_groups
with the WHERE filters of the group-inherited path. -/
def groupGrant (db : PermDB) (userID : Nat) (resource action : String) : Bool :=
  db.permissions.any fun p =>
    db.rolePermissions.any fun rp =>
      db.roles.any fun r =>
        db.groupRoles.any fun gr =>
          db.groups.any fun g =>
            db.userGroups.any fun ug =>
              p.id == rp.permissionId && rp.roleId == r.id && r.id == gr.roleId &&
              gr.groupId == g.id && g.id == ug.groupId && ug.userId == userID &&
              p.resource == resource && p.action == action &&
              p.isDeleted == false && p.isActive == true &&
              r.isDeleted == false && r.isActive == true &&
              g.isDeleted == false && g.isActive == true

/-- PermissionRepository.CheckUserPermission: the query returns the two
boolean aggregate rows (UNION ALL), and the scan loop answers true as soon
as one row is true, otherwise false. -/
def checkUserPermission (db : PermDB) (userID : Nat) (resource action : String) : Bool :=
  directGrant db userID resource action || groupGrant db userID resource action

/-- The specification invariant (spec section 3): a permission is held iff
some active, non-deleted role, reachable directly via user_roles or through
an active, non-deleted group membership, is linked via role_permissions to
an active, non-deleted permission matching the requested resource/action. -/
def permissionHeld (db : PermDB) (userID : Nat) (resource action : String) : Prop :=
  ∃ r ∈ db.roles, r.isActive = true ∧ r.isDeleted = false ∧
    ((∃ ur ∈ db.userRoles, ur.userId = userID ∧ ur.roleId = r.id) ∨
     (∃ g ∈ db.groups, g.isActive = true ∧ g.isDeleted = false ∧
       (∃ ug ∈ db.userGroups, ug.userId = userID ∧ ug.groupId = g.id) ∧
       (∃ gr ∈ db.groupRoles, gr.groupId = g.id ∧ gr.roleId = r.id))) ∧
    (∃ p ∈ db.permissions, p.isActive = true ∧ p.isDeleted = false ∧
      p.resource = resource ∧ p.action = action ∧
      (∃ rp ∈ db.rolePermissions, rp.roleId = r.id ∧ rp.permissionId = p.id))

/-! ## Provider registry (internal/provider ProviderRegistry) -/

/-- An identity provider as observed by the registry: its reported name
(GetProviderName), its reported enabled state (IsEnabled), and a tag
distinguishing distinct provider instances that share a name. -/
structure Provider where
  name : String
  enabled : Bool
  tag : Nat
deriving DecidableEq, Repr

/-- ProviderRegistry state: the name-indexed provider map (modelled as an
association list with unique keys, insertion at the front) and the name of
the designated default provider (empty string when unset). -/
structure Registry where
  providers : List (String × Provider)
  defaultProvider : String
deriving DecidableEq, Repr

/-- NewProviderRegistry: empty map, no default designated. -/
def emptyRegistry : Registry :=
  { providers := [], defaultProvider := "" }

/-- ProviderRegistry.RegisterProvider: reject an empty name, reject a name
already present, otherwise insert and designate the provider as default
when no default is set yet or the name is "local". -/
def registerProvider (p : Provider) (r : Registry) : Except String Registry :=
  let name := p.name
  if name = "" then
    .error "provider name cannot be empty"
  else if r.providers.any (fun q => q.1 == name) then
    .error ("provider " ++ name ++ " already registered")
  else
    let providers := (name, p) :: r.providers
    let dflt := if r.defaultProvider = "" || name = "local" then name else r.defaultProvider
    .ok { providers := providers, defaultProvider := dflt }

/-- Map lookup in the registry (Go map indexing providers[name]). -/
def lookupProvider (r : Registry) (name : String) : Option Provider :=
  (r.providers.find? (fun q => q.1 == name)).map (fun q => q.2)

/-- ProviderRegistry.GetProvider: not-found and disabled are errors. -/
def getProvider (r : Registry) (name : String) : Except String Provider :=
  match lookupProvider r name with
  | none => .error ("provider " ++ name ++ " not found")
  | some p =>
      if !p.enabled then .error ("provider " ++ name ++ " is disabled")
      else .ok p

/-- ProviderRegistry.GetDefaultProvider: nil when no default is designated,
when the designated name is not in the map, or when the designated provider
reports itself disabled. -/
def getDefaultProvider (r : Registry) : Option Provider :=
  if r.defaultProvider = "" then none
  else
    match lookupProvider r r.defaultProvider with
    | none => none
    | some p => if !p.enabled then none else some p

/-! ## Users, password hashing, and the local provider
(internal/domain, pkg/password, internal/provider/local) -/

/-- domain.UserStatus. -/
inductive UserStatus where
  | active
  | inactive
  | pending
  | suspended
deriving DecidableEq, Repr

/-- A bcrypt digest, modelled as an injective symbolic constructor over the
hashed password (pkg/password HashPassword); collision-freedom and
correctness of bcrypt verification are idealised. -/
inductive PasswordDigest where
  | bcrypt (pwd : String)
deriving DecidableEq, Repr

/-- pkg/password VerifyPassword: succeeds exactly on the hashed password. -/
def verifyPassword (h : PasswordDigest) (pwd : String) : Bool :=
  match h with
  | .bcrypt s => s == pwd

/-- domain.User, restricted to the fields the verified operations read. -/
structure User where
  id : Nat
  email : String
  passwordHash : PasswordDigest
  status : UserStatus
deriving DecidableEq, Repr

/-- UserRepository.GetByEmail, modelled as lookup in the user table. -/
def userGetByEmail (users : List User) (email : String) : Except String User :=
  match users.find? (fun u => u.email == email) with
  | some u => .ok u
  | none => .error "user not found"

/-- UserRepository.GetByID, modelled as lookup in the user table. -/
def userGetByID (users : List User) (id : Nat) : Except String User :=
  match users.find? (fun u => u.id == id) with
  | some u => .ok u
  | none => .error "user not found"

/-- LocalProvider.Authenticate: lookup by email, verify the password, then
check the account status; lookup failure and verification failure yield the
same generic error value. -/
def localAuthenticate (users : List User) (username pwd : String) :
    Except String User :=
  match userGetByEmail users username with
  | .error _ => .error "invalid credentials"
  | .ok user =>
      if !verifyPassword user.passwordHash pwd then .error "invalid credentials"
      else if user.status ≠ UserStatus.active then .error "account is not active"
      else .ok user

/-! ## Token service (internal/service JWTService, postgres TokenRepository,
usecase AuthUseCase.RefreshToken)

The pkg/jwt signing layer is not among the sources; it is modelled from the
specification (sections 4.1 and 6): signed tokens carry the stated claims,
signature verification accepts exactly the tokens produced by the service,
and validation checks the embedded expiry.  Times are epoch seconds. -/

/-- domain.TokenClaims (access-token claims, spec section 6). -/
structure TokenClaims where
  userID : Nat
  email : String
  expiresAt : Nat
  issuedAt : Nat
  issuer : String
deriving DecidableEq, Repr

/-- domain.RefreshTokenClaims (refresh-token claims, spec section 6). -/
structure RefreshTokenClaims where
  userID : Nat
  tokenID : Nat
  expiresAt : Nat
  issuedAt : Nat
  issuer : String
deriving DecidableEq, Repr

/-- A string presented as a token: either a well-signed access token, a
well-signed refresh token, or any other string (malformed or forged). -/
inductive TokenString where
  | accessSigned (c : TokenClaims)
  | refreshSigned (c : RefreshTokenClaims)
  | other (s : String)
deriving DecidableEq, Repr

/-- A SHA-256 hex digest, modelled as an injective symbolic constructor
over the digested token string (collision-freedom idealised). -/
inductive Digest where
  | sha256hex (t : TokenString)
deriving DecidableEq, Repr

/-- JWTService.hashToken: the SHA-256 hex digest of the full signed token
string. -/
def hashToken (t : TokenString) : Digest :=
  .sha256hex t

/-- The fixed issuer string embedded in every token (spec section 6). -/
def tokenIssuer : String := "aras-auth"

/-- Modelled from the spec: pkg/jwt GenerateAccessToken signs the claims
principal id, email, issued-at, issued-at plus the configured access
lifetime, and the fixed issuer. -/
def jwtGenerateAccessToken (now accessExpiry : Nat) (userID : Nat) (email : String) :
    TokenString :=
  .accessSigned { userID := userID, email := email, expiresAt := now + accessExpiry,
                  issuedAt := now, issuer := tokenIssuer }

/-- Modelled from the spec: pkg/jwt GenerateRefreshToken signs the claims
principal id, a fresh token id, issued-at, issued-at plus the configured
refresh lifetime, and the fixed issuer. -/
def jwtGenerateRefreshToken (now refreshExpiry : Nat) (userID tokenID : Nat) :
    TokenString :=
  .refreshSigned { userID := userID, tokenID := tokenID, expiresAt := now + refreshExpiry,
                   issuedAt := now, issuer := tokenIssuer }

/-- Modelled from the spec: pkg/jwt ValidateAccessToken verifies the
signature and the embedded expiry only (no storage access). -/
def jwtValidateAccessToken (now : Nat) (t : TokenString) :
    Except String TokenClaims :=
  match t with
  | .accessSigned c => if now < c.expiresAt then .ok c else .error "token is expired"
  | _ => .error "invalid token"

/-- Modelled from the spec: pkg/jwt ValidateRefreshToken verifies the
signature and the embedded expiry only (no storage access). -/
def jwtValidateRefreshToken (now : Nat) (t : TokenString) :
    Except String RefreshTokenClaims :=
  match t with
  | .refreshSigned c => if now < c.expiresAt then .ok c else .error "token is expired"
  | _ => .error "invalid token"

/-- domain.RefreshToken: the persisted refresh-token row. -/
structure RefreshTokenRecord where
  id : Nat
  userID : Nat
  tokenHash : Digest
  expiresAt : Nat
  createdAt : Nat
deriving DecidableEq, Repr

/-- Events recorded to witness the order of side effects during rotation. -/
inductive Event where
  | issuedAccess (userID : Nat)
  | issuedRefresh (userID recordID : Nat)
  | revokeAttempt (t : TokenString)
deriving DecidableEq, Repr

/-- The world a token-service call runs in: the refresh_tokens table, the
users table, the fresh-uuid counter, the clock, and the event log. -/
structure World where
  store : List RefreshTokenRecord
  users : List User
  nextId : Nat
  now : Nat
  log : List Event
deriving DecidableEq, Repr

/-- TokenRepository.Create: INSERT INTO refresh_tokens; fails on a primary
key conflict, otherwise appends the row. -/
def repoCreate (record : RefreshTokenRecord) (store : List RefreshTokenRecord) :
    Except String (List RefreshTokenRecord) :=
  if store.any (fun q => q.id == record.id) then .error "duplicate key"
  else .ok (store ++ [record])

/-- TokenRepository.GetByTokenHash: SELECT by token_hash with the
expires_at > NOW() filter; no row is an error. -/
def repoGetByTokenHash (h : Digest) (now : Nat) (store : List RefreshTokenRecord) :
    Except String RefreshTokenRecord :=
  match store.find? (fun q => q.tokenHash == h && now < q.expiresAt) with
  | some q => .ok q
  | none => .error "refresh token not found or expired"

/-- TokenRepository.Delete: DELETE WHERE id = $1; zero rows affected is an
error. -/
def repoDelete (id : Nat) (store : List RefreshTokenRecord) :
    Except String (List RefreshTokenRecord) :=
  let remaining := store.filter (fun q => !(q.id == id))
  if remaining.length == store.length then .error "refresh token not found"
  else .ok remaining

/-- The token-service configuration: the two lifetimes handed to
NewJWTService (config JWT.AccessExpiry and JWT.RefreshExpiry), in seconds. -/
structure Config where
  accessExpiry : Nat
  refreshExpiry : Nat
deriving DecidableEq, Repr

/-- The record lifetime hardcoded in JWTService.GenerateRefreshToken:
time.Now().Add(7 * 24 * time.Hour), in seconds. -/
def refreshRecordLifetime : Nat := 7 * 24 * 3600

/-- JWTService.GenerateAccessToken: stateless signing (the event log is a
ghost instrument recording the issuance). -/
def generateAccessToken (cfg : Config) (userID : Nat) (email : String) (w : World) :
    Except String TokenString × World :=
  (.ok (jwtGenerateAccessToken w.now cfg.accessExpiry userID email),
   { w with log := w.log ++ [.issuedAccess userID] })

/-- JWTService.GenerateRefreshToken: sign the refresh token (pkg/jwt draws
the fresh embedded token id), then draw another fresh uuid as the record id
and insert a row holding the digest of the signed token and a hardcoded
7-day expiry. -/
def generateRefreshToken (cfg : Config) (userID : Nat) (w : World) :
    Except String TokenString × World :=
  let tokenString := jwtGenerateRefreshToken w.now cfg.refreshExpiry userID w.nextId
  let recordID := w.nextId + 1
  let w1 := { w with nextId := w.nextId + 2 }
  let record : RefreshTokenRecord :=
    { id := recordID, userID := userID, tokenHash := hashToken tokenString,
      expiresAt := w.now + refreshRecordLifetime, createdAt := w.now }
  match repoCreate record w1.store with
  | .error e => (.error ("failed to create refresh token: " ++ e), w1)
  | .ok store =>
      (.ok tokenString,
       { w1 with store := store, log := w1.log ++ [.issuedRefresh userID recordID] })

/-- JWTService.ValidateAccessToken: signature and expiry only. -/
def validateAccessToken (now : Nat) (t : TokenString) : Except String TokenClaims :=
  jwtValidateAccessToken now t

/-- JWTService.ValidateRefreshToken: verify the JWT, then require a
non-expired store row with the matching hash. -/
def validateRefreshToken (t : TokenString) (w : World) :
    Except String RefreshTokenClaims :=
  match jwtValidateRefreshToken w.now t with
  | .error e => .error e
  | .ok claims =>
      match repoGetByTokenHash (hashToken t) w.now w.store with
      | .error _ => .error "refresh token not found or expired"
      | .ok _ => .ok claims

/-- JWTService.RevokeRefreshToken: validate the JWT to recover the embedded
token id, then DELETE the row with that id. -/
def revokeRefreshToken (t : TokenString) (w : World) :
    Except String Unit × World :=
  let w0 := { w with log := w.log ++ [.revokeAttempt t] }
  match jwtValidateRefreshToken w0.now t with
  | .error e => (.error e, w0)
  | .ok claims =>
      match repoDelete claims.tokenID w0.store with
      | .error e => (.error e, w0)
      | .ok store => (.ok (), { w0 with store := store })

/-- domain.TokenIntrospection. -/
structure TokenIntrospection where
  active : Bool
  userID : Nat
  email : String
  expiresAt : Nat
  scope : String
deriving DecidableEq, Repr

/-- JWTService.IntrospectToken: wraps access-token validation; any failure
becomes active false with a nil error and zero-valued fields, success
carries the claims and the default scope. -/
def introspectToken (now : Nat) (t : TokenString) :
    Except String TokenIntrospection :=
  match validateAccessToken now t with
  | .error _ =>
      .ok { active := false, userID := 0, email := "", expiresAt := 0, scope := "" }
  | .ok claims =>
      .ok { active := true, userID := claims.userID, email := claims.email,
            expiresAt := claims.expiresAt, scope := "read write" }

/-- usecase.LoginResponse (token fields and the user). -/
structure LoginResponse where
  accessToken : TokenString
  refreshToken : TokenString
  expiresIn : Nat
  tokenType : String
  user : User
deriving DecidableEq, Repr

/-- AuthUseCase.RefreshToken: validate the old token, re-check the
principal, issue the new access and refresh tokens, then attempt to revoke
the old token, swallowing a revocation failure (logged, not surfaced). -/
def authRefreshToken (cfg : Config) (t : TokenString) (w : World) :
    Except String LoginResponse × World :=
  match validateRefreshToken t w with
  | .error e => (.error ("invalid refresh token: " ++ e), w)
  | .ok claims =>
      match userGetByID w.users claims.userID with
      | .error e => (.error ("user not found: " ++ e), w)
      | .ok user =>
          if user.status ≠ UserStatus.active then
            (.error "user account is not active", w)
          else
            match generateAccessToken cfg user.id user.email w with
            | (.error e, w1) => (.error ("failed to generate access token: " ++ e), w1)
            | (.ok accessToken, w1) =>
                match generateRefreshToken cfg user.id w1 with
                | (.error e, w2) =>
                    (.error ("failed to generate refresh token: " ++ e), w2)
                | (.ok newRefreshToken, w2) =>
                    let revoked := revokeRefreshToken t w2
                    (.ok { accessToken := accessToken, refreshToken := newRefreshToken,
                           expiresIn := 900, tokenType := "Bearer", user := user },
                     revoked.2)

/-- AuthUseCase.Logout: revoke the presented refresh token, surfacing the
result. -/
def authLogout (t : TokenString) (w : World) : Except String Unit × World :=
  revokeRefreshToken t w

/-! ## Concrete scenarios used to exercise the theorems -/

/-- An active principal with a known password. -/
def demoUser : User :=
  { id := 42, email := "u@example.com",
    passwordHash := .bcrypt "password123", status := .active }

/-- A pending (not yet active) principal with a known password. -/
def demoPending : User :=
  { id := 43, email := "p@example.com",
    passwordHash := .bcrypt "pw12345678", status := .pending }

/-- The default configuration: 15-minute access tokens, 168-hour refresh
tokens, in seconds. -/
def cfgDefault : Config := { accessExpiry := 900, refreshExpiry := 604800 }

/-- A non-default configuration: one-hour refresh tokens. -/
def cfgShort : Config := { accessExpiry := 900, refreshExpiry := 3600 }

/-- A fresh world: empty token store, one active user. -/
def demoWorld0 : World :=
  { store := [], users := [demoUser], nextId := 0, now := 1000, log := [] }

/-- The refresh token issued to demoUser from demoWorld0 under the default
configuration. -/
def demoTok : TokenString :=
  .refreshSigned { userID := 42, tokenID := 0, expiresAt := 605800,
                   issuedAt := 1000, issuer := tokenIssuer }

/-- The issuance of demoTok. -/
def demoIssued : Except String TokenString × World :=
  generateRefreshToken cfgDefault 42 demoWorld0

/-- The world right after demoTok was issued. -/
def demoW1 : World := demoIssued.2

/-- First rotation of demoTok. -/
def demoRot1 : Except String LoginResponse × World :=
  authRefreshToken cfgDefault demoTok demoW1

/-- Second rotation of the same original token demoTok. -/
def demoRot2 : Except String LoginResponse × World :=
  authRefreshToken cfgDefault demoTok demoRot1.2

/-- An empty world at time zero with no users. -/
def wEmpty : World :=
  { store := [], users := [], nextId := 0, now := 0, log := [] }

/-- A refresh token whose embedded expiry (500) has passed. -/
def tExpired : TokenString :=
  .refreshSigned { userID := 9, tokenID := 3, expiresAt := 500,
                   issuedAt := 0, issuer := tokenIssuer }

/-- A world past the expiry of tExpired whose store still holds the record
for tExpired. -/
def wExpired : World :=
  { store := [{ id := 4, userID := 9, tokenHash := hashToken tExpired,
                expiresAt := 1000000000, createdAt := 0 }],
    users := [], nextId := 5, now := 600, log := [] }

/-- A provider instance named local, enabled. -/
def provA : Provider := { name := "local", enabled := true, tag := 0 }

/-- A second, distinct provider instance also named local. -/
def provB : Provider := { name := "local", enabled := true, tag := 1 }

/-- The registry after registering provA into the empty registry. -/
def regA : Registry :=
  { providers := [("local", provA)], defaultProvider := "local" }

/-- A provider named local that reports itself disabled. -/
def provDisabled : Provider := { name := "local", enabled := false, tag := 5 }

/-- The registry after registering provDisabled into the empty registry. -/
def regDisabled : Registry :=
  { providers := [("local", provDisabled)], defaultProvider := "local" }

/-- An active permission (orders, read). -/
def permOrdersRead : Permission :=
  { id := 100, resource := "orders", action := "read", isActive := true, isDeleted := false }

/-- An active role. -/
def roleDemo : Role := { id := 200, isActive := true, isDeleted := false }

/-- A small permission graph: user 1 holds roleDemo directly, and roleDemo
grants (orders, read). -/
def dbDemo : PermDB :=
  { permissions := [permOrdersRead], roles := [roleDemo], groups := [],
    userRoles := [{ userId := 1, roleId := 200 }], userGroups := [],
    groupRoles := [], rolePermissions := [{ roleId := 200, permissionId := 100 }] }

/-- The refresh token issued to user 7 from wEmpty under the short
configuration: its embedded expiry is the configured 3600 seconds. -/
def demoShortTok : TokenString :=
  .refreshSigned { userID := 7, tokenID := 0, expiresAt := 3600, issuedAt := 0,
                   issuer := tokenIssuer }

/-- Access-token claims used to exercise introspection. -/
def demoAccessClaims : TokenClaims :=
  { userID := 42, email := "u@example.com", expiresAt := 100, issuedAt := 0,
    issuer := tokenIssuer }

/-! ## Helper lemmas -/

lemma directGrant_iff (db : PermDB) (userID : Nat) (resource action : String) :
    directGrant db userID resource action = true ↔
      ∃ r ∈ db.roles, r.isActive = true ∧ r.isDeleted = false ∧
        (∃ ur ∈ db.userRoles, ur.userId = userID ∧ ur.roleId = r.id) ∧
        (∃ p ∈ db.permissions, p.isActive = true ∧ p.isDeleted = false ∧
          p.resource = resource ∧ p.action = action ∧
          (∃ rp ∈ db.rolePermissions, rp.roleId = r.id ∧ rp.permissionId = p.id)) := by
  simp only [directGrant, List.any_eq_true, Bool.and_eq_true, beq_iff_eq]
  constructor
  · rintro ⟨p, hp, rp, hrp, r, hr, ur, hur,
      ⟨⟨⟨⟨⟨⟨⟨⟨h1, h2⟩, h3⟩, h4⟩, h5⟩, h6⟩, h7⟩, h8⟩, h9⟩, h10⟩
    exact ⟨r, hr, h10, h9, ⟨ur, hur, h4, h3.symm⟩,
      ⟨p, hp, h8, h7, h5, h6, ⟨rp, hrp, h2, h1.symm⟩⟩⟩
  · rintro ⟨r, hr, hra, hrd, ⟨ur, hur, huru, hurr⟩,
      ⟨p, hp, hpa, hpd, hres, hact, ⟨rp, hrp, hrpr, hrpp⟩⟩⟩
    exact ⟨p, hp, rp, hrp, r, hr, ur, hur,
      ⟨⟨⟨⟨⟨⟨⟨⟨hrpp.symm, hrpr⟩, hurr.symm⟩, huru⟩, hres⟩, hact⟩, hpd⟩, hpa⟩, hrd⟩, hra⟩

lemma groupGrant_iff (db : PermDB) (userID : Nat) (resource action : String) :
    groupGrant db userID resource action = true ↔
      ∃ r ∈ db.roles, r.isActive = true ∧ r.isDeleted = false ∧
        (∃ g ∈ db.groups, g.isActive = true ∧ g.isDeleted = false ∧
          (∃ ug ∈ db.userGroups, ug.userId = userID ∧ ug.groupId = g.id) ∧
          (∃ gr ∈ db.groupRoles, gr.groupId = g.id ∧ gr.roleId = r.id)) ∧
        (∃ p ∈ db.permissions, p.isActive = true ∧ p.isDeleted = false ∧
          p.resource = resource ∧ p.action = action ∧
          (∃ rp ∈ db.rolePermissions, rp.roleId = r.id ∧ rp.permissionId = p.id)) := by
  simp only [groupGrant, List.any_eq_true, Bool.and_eq_true, beq_iff_eq]
  constructor
  · rintro ⟨p, hp, rp, hrp, r, hr, gr, hgr, g, hg, ug, hug, hconj⟩
    refine ⟨r, hr, ?_, ?_, ⟨g, hg, ?_, ?_, ⟨ug, hug, ?_, ?_⟩, ⟨gr, hgr, ?_, ?_⟩⟩,
      ⟨p, hp, ?_, ?_, ?_, ?_, ⟨rp, hrp, ?_, ?_⟩⟩⟩ <;> tauto
  · rintro ⟨r, hr, hra, hrd,
      ⟨g, hg, hga, hgd, ⟨ug, hug, hugu, hugg⟩, ⟨gr, hgr, hgrg, hgrr⟩⟩,
      ⟨p, hp, hpa, hpd, hres, hact, ⟨rp, hrp, hrpr, hrpp⟩⟩⟩
    refine ⟨p, hp, rp, hrp, r, hr, gr, hgr, g, hg, ug, hug, ?_⟩
    tauto

lemma checkUserPermission_iff (db : PermDB) (userID : Nat) (resource action : String) :
    checkUserPermission db userID resource action = true ↔
      permissionHeld db userID resource action := by
  simp only [checkUserPermission, Bool.or_eq_true, directGrant_iff, groupGrant_iff,
    permissionHeld]
  constructor
  · rintro (⟨r, hr, hra, hrd, hdirect, hperm⟩ | ⟨r, hr, hra, hrd, hgroup, hperm⟩)
    · exact ⟨r, hr, hra, hrd, Or.inl hdirect, hperm⟩
    · exact ⟨r, hr, hra, hrd, Or.inr hgroup, hperm⟩
  · rintro ⟨r, hr, hra, hrd, hdirect | hgroup, hperm⟩
    · exact Or.inl ⟨r, hr, hra, hrd, hdirect, hperm⟩
    · exact Or.inr ⟨r, hr, hra, hrd, hgroup, hperm⟩

lemma permissionHeld_cons_rolePermission (db : PermDB) (e : RolePermission)
    (userID : Nat) (resource action : String)
    (h : permissionHeld db userID resource action) :
    permissionHeld { db with rolePermissions := e :: db.rolePermissions }
      userID resource action := by
  obtain ⟨r, hr, hra, hrd, hpath, p, hp, hpa, hpd, hres, hact, rp, hrp, h1, h2⟩ := h
  exact ⟨r, hr, hra, hrd, hpath, p, hp, hpa, hpd, hres, hact, rp,
    List.mem_cons_of_mem _ hrp, h1, h2⟩

lemma permissionHeld_cons_userRole (db : PermDB) (e : UserRole)
    (userID : Nat) (resource action : String)
    (h : permissionHeld db userID resource action) :
    permissionHeld { db with userRoles := e :: db.userRoles }
      userID resource action := by
  obtain ⟨r, hr, hra, hrd, hpath, hperm⟩ := h
  refine ⟨r, hr, hra, hrd, ?_, hperm⟩
  rcases hpath with ⟨ur, hur, h1, h2⟩ | hgroup
  · exact Or.inl ⟨ur, List.mem_cons_of_mem _ hur, h1, h2⟩
  · exact Or.inr hgroup

lemma permissionHeld_cons_groupRole (db : PermDB) (e : GroupRole)
    (userID : Nat) (resource action : String)
    (h : permissionHeld db userID resource action) :
    permissionHeld { db with groupRoles := e :: db.groupRoles }
      userID resource action := by
  obtain ⟨r, hr, hra, hrd, hpath, hperm⟩ := h
  refine ⟨r, hr, hra, hrd, ?_, hperm⟩
  rcases hpath with hdirect | ⟨g, hg, hga, hgd, hug, gr, hgr, h1, h2⟩
  · exact Or.inl hdirect
  · exact Or.inr ⟨g, hg, hga, hgd, hug, gr, List.mem_cons_of_mem _ hgr, h1, h2⟩

/-! ## Claim theorems -/

/-- Claim C3: for every principal id, resource, and action,
CheckPermission returns true iff there exists a role that is active and
non-deleted, reachable from the principal either directly via user_roles or
via a group membership whose group is active and non-deleted, linked via
role_permissions to an active, non-deleted permission matching the
requested resource and action.  When no such path exists the result is
false (in the model the query is total, mirroring the Go function, which
returns false with a nil error whenever the query itself succeeds), and
because the characterisation is an existential over all paths, one
invalidated path never prevents another path from granting. -/
theorem checkUserPermission_correct (db : PermDB) (userID : Nat)
    (resource action : String) :
    checkUserPermission db userID resource action = true ↔
      permissionHeld db userID resource action :=
  checkUserPermission_iff db userID resource action

/-- Claim C6: CheckPermission is monotonic in grants: for a fixed
principal, resource, and action, adding a role_permissions edge, a
user_roles edge, or a group_roles edge to an otherwise-unchanged graph can
only change the result from false to true, never from true to false. -/
theorem checkUserPermission_monotone (db : PermDB) (userID : Nat)
    (resource action : String) :
    (∀ e : RolePermission,
       checkUserPermission db userID resource action = true →
       checkUserPermission { db with rolePermissions := e :: db.rolePermissions }
         userID resource action = true) ∧
    (∀ e : UserRole,
       checkUserPermission db userID resource action = true →
       checkUserPermission { db with userRoles := e :: db.userRoles }
         userID resource action = true) ∧
    (∀ e : GroupRole,
       checkUserPermission db userID resource action = true →
       checkUserPermission { db with groupRoles := e :: db.groupRoles }
         userID resource action = true) := by
  refine ⟨fun e h => ?_, fun e h => ?_, fun e h => ?_⟩
  · rw [checkUserPermission_iff] at h ⊢
    exact permissionHeld_cons_rolePermission db e userID resource action h
  · rw [checkUserPermission_iff] at h ⊢
    exact permissionHeld_cons_userRole db e userID resource action h
  · rw [checkUserPermission_iff] at h ⊢
    exact permissionHeld_cons_groupRole db e userID resource action h

/-- Witness for C6: on the concrete graph dbDemo, where user 1 already
holds (orders, read), adding any of the three kinds of edges keeps the
result true. -/
theorem checkUserPermission_monotone_witness :
    checkUserPermission dbDemo 1 "orders" "read" = true ∧
    checkUserPermission
      { dbDemo with rolePermissions :=
          { roleId := 201, permissionId := 100 } :: dbDemo.rolePermissions }
      1 "orders" "read" = true ∧
    checkUserPermission
      { dbDemo with userRoles := { userId := 1, roleId := 201 } :: dbDemo.userRoles }
      1 "orders" "read" = true ∧
    checkUserPermission
      { dbDemo with groupRoles := { groupId := 300, roleId := 200 } :: dbDemo.groupRoles }
      1 "orders" "read" = true :=
  ⟨by decide,
   (checkUserPermission_monotone dbDemo 1 "orders" "read").1
     { roleId := 201, permissionId := 100 } (by decide),
   (checkUserPermission_monotone dbDemo 1 "orders" "read").2.1
     { userId := 1, roleId := 201 } (by decide),
   (checkUserPermission_monotone dbDemo 1 "orders" "read").2.2
     { groupId := 300, roleId := 200 } (by decide)⟩

/-- Claim C4: Register fails on an empty provider name; fails with a
duplicate-name error when the name is already registered (the registry
value is not replaced: failure returns no new registry, and the claim about
unchanged state is reflected in the duplicate branch producing only an
error); otherwise it inserts the provider, leaving all other names
untouched; the first provider registered, or any provider named local,
becomes the default, and a later successful registration does not change an
already-set default unless its name is local.  Finally the concrete
scenario: registering provA (named local) and then provB (also named
local) makes the second call fail and Default still returns provA. -/
theorem registerProvider_contract :
    (∀ (p : Provider) (r : Registry), p.name = "" →
       registerProvider p r = .error "provider name cannot be empty") ∧
    (∀ (p : Provider) (r : Registry), p.name ≠ "" →
       (∃ q, lookupProvider r p.name = some q) →
       registerProvider p r = .error ("provider " ++ p.name ++ " already registered")) ∧
    (∀ (p : Provider) (r r2 : Registry), registerProvider p r = .ok r2 →
       lookupProvider r2 p.name = some p ∧
       (∀ nm, nm ≠ p.name → lookupProvider r2 nm = lookupProvider r nm) ∧
       (r.defaultProvider = "" → r2.defaultProvider = p.name) ∧
       (p.name = "local" → r2.defaultProvider = p.name) ∧
       (r.defaultProvider ≠ "" → p.name ≠ "local" →
         r2.defaultProvider = r.defaultProvider)) ∧
    (registerProvider provA emptyRegistry = .ok regA ∧
     registerProvider provB regA = .error "provider local already registered" ∧
     getDefaultProvider regA = some provA) := by
  refine ⟨fun p r h => ?_, fun p r hne hdup => ?_, fun p r r2 h => ?_,
    rfl, rfl, rfl⟩
  · simp only [registerProvider]
    rw [if_pos h]
  · obtain ⟨q, hq⟩ := hdup
    have hany : (r.providers.any fun q2 => q2.1 == p.name) = true := by
      simp only [lookupProvider] at hq
      cases hy : r.providers.find? fun q2 => q2.1 == p.name with
      | none => rw [hy] at hq; cases hq
      | some y =>
          have hpred := List.find?_some hy
          have hmem := List.mem_of_find?_eq_some hy
          exact List.any_eq_true.mpr ⟨y, hmem, hpred⟩
    simp only [registerProvider]
    rw [if_neg hne, if_pos hany]
  · simp only [registerProvider] at h
    by_cases h1 : p.name = ""
    · rw [if_pos h1] at h
      cases h
    · rw [if_neg h1] at h
      by_cases h2 : (r.providers.any fun q2 => q2.1 == p.name) = true
      · rw [if_pos h2] at h
        cases h
      · rw [if_neg h2] at h
        injection h with h
        subst h
        refine ⟨?_, fun nm hnm => ?_, fun hd => ?_, fun hl => ?_, fun hd hl => ?_⟩
        · simp [lookupProvider, List.find?]
        · simp only [lookupProvider, List.find?]
          have : (p.name == nm) = false := by
            simp [Ne.symm hnm]
          simp [this]
        · simp [hd]
        · simp [hl]
        · simp [hd, hl]

/-- Witness for C4: the universally quantified components applied at
concrete inputs: registering an empty-named provider fails, registering a
name twice fails with the duplicate error, and a successful registration of
a non-local provider into a registry with a set default keeps that
default. -/
theorem registerProvider_contract_witness :
    registerProvider { name := "", enabled := true, tag := 9 } emptyRegistry =
      .error "provider name cannot be empty" ∧
    registerProvider provB regA = .error ("provider " ++ provB.name ++ " already registered") ∧
    (registerProvider { name := "ldap", enabled := true, tag := 2 } regA =
       .ok { providers := [("ldap", { name := "ldap", enabled := true, tag := 2 }),
                           ("local", provA)], defaultProvider := "local" } →
     ({ providers := [("ldap", { name := "ldap", enabled := true, tag := 2 }),
                      ("local", provA)], defaultProvider := "local" } : Registry).defaultProvider =
       regA.defaultProvider) :=
  ⟨registerProvider_contract.1 { name := "", enabled := true, tag := 9 } emptyRegistry rfl,
   registerProvider_contract.2.1 provB regA (by decide) ⟨provA, by decide⟩,
   fun h => (registerProvider_contract.2.2.1 { name := "ldap", enabled := true, tag := 2 }
     regA _ h).2.2.2.2 (by decide) (by decide)⟩

/-- Counterexample to claim C9: a reachable registry state (one register
call from the empty registry) in which the designated default name local
was registered and inserted, yet GetDefaultProvider returns none, because
the designated default provider reports itself disabled — a case the claim
omits. -/
theorem getDefaultProvider_nil_counterexample :
    registerProvider provDisabled emptyRegistry = .ok regDisabled ∧
    regDisabled.defaultProvider = "local" ∧
    lookupProvider regDisabled "local" = some provDisabled ∧
    getDefaultProvider regDisabled = none :=
  ⟨rfl, rfl, rfl, rfl⟩

/-- Claim C9 amended: GetDefaultProvider returns none exactly when no
default has been designated (no provider was ever registered), when the
designated default name is not present in the registry, or when the
provider registered under the designated default name reports itself
disabled; in every other registry state it returns the designated default
provider. -/
theorem getDefaultProvider_none_iff (r : Registry) :
    getDefaultProvider r = none ↔
      r.defaultProvider = "" ∨
      lookupProvider r r.defaultProvider = none ∨
      (∃ p, lookupProvider r r.defaultProvider = some p ∧ p.enabled = false) := by
  simp only [getDefaultProvider]
  by_cases h : r.defaultProvider = ""
  · simp [h]
  · rw [if_neg h]
    cases hl : lookupProvider r r.defaultProvider with
    | none => simp [h, hl]
    | some p =>
        by_cases he : p.enabled
        · simp [h, hl, he]
        · simp [h, hl, he]

/-- Claim C8: local Authenticate returns the same generic invalid
credentials error both when no principal exists for the login and when the
password fails hash verification, making the two cases indistinguishable to
the caller, and returns the distinct account-not-active error exactly when
the principal exists, the password verifies, and the status is not
active. -/
theorem localAuthenticate_errors (users : List User) (username pwd : String) :
    (∀ e, userGetByEmail users username = .error e →
       localAuthenticate users username pwd = .error "invalid credentials") ∧
    (∀ u, userGetByEmail users username = .ok u →
       verifyPassword u.passwordHash pwd = false →
       localAuthenticate users username pwd = .error "invalid credentials") ∧
    (localAuthenticate users username pwd = .error "account is not active" ↔
       ∃ u, userGetByEmail users username = .ok u ∧
         verifyPassword u.passwordHash pwd = true ∧ u.status ≠ UserStatus.active) := by
  refine ⟨fun e he => ?_, fun u hu hv => ?_, ?_⟩
  · simp only [localAuthenticate, he]
  · simp only [localAuthenticate, hu, hv]
    rfl
  · simp only [localAuthenticate]
    cases hu : userGetByEmail users username with
    | error e =>
        constructor
        · intro h
          exact absurd (Except.error.inj h) (by decide)
        · rintro ⟨u, hu2, -⟩
          cases hu2
    | ok u =>
        by_cases hv : verifyPassword u.passwordHash pwd
        · by_cases hs : u.status = UserStatus.active
          · simp [hv, hs]
          · simp [hv, hs]
        · simp only [Bool.not_eq_true] at hv
          simp [hv]

/-- Witness for C8: the unknown login and the wrong password produce the
same error value, and a pending principal with the right password is
reported not active. -/
theorem localAuthenticate_errors_witness :
    localAuthenticate [demoUser] "nobody@example.com" "password123" =
      .error "invalid credentials" ∧
    localAuthenticate [demoUser] "u@example.com" "wrong-password" =
      .error "invalid credentials" ∧
    localAuthenticate [demoPending] "p@example.com" "pw12345678" =
      .error "account is not active" :=
  ⟨(localAuthenticate_errors [demoUser] "nobody@example.com" "password123").1
     "user not found" rfl,
   (localAuthenticate_errors [demoUser] "u@example.com" "wrong-password").2.1
     demoUser rfl rfl,
   (localAuthenticate_errors [demoPending] "p@example.com" "pw12345678").2.2.mpr
     ⟨demoPending, rfl, rfl, by decide⟩⟩

/-- Claim C7: IntrospectToken never propagates a validation error: whenever
access-token validation fails it returns active false with a nil error
(modelled by the Except value being ok) and all other fields zero-valued;
whenever validation succeeds it returns active true with the principal id,
email, and expiry of the token (and the default scope). -/
theorem introspectToken_contract (now : Nat) (t : TokenString) :
    (∀ e, validateAccessToken now t = .error e →
       introspectToken now t =
         .ok { active := false, userID := 0, email := "", expiresAt := 0, scope := "" }) ∧
    (∀ c, validateAccessToken now t = .ok c →
       introspectToken now t =
         .ok { active := true, userID := c.userID, email := c.email,
               expiresAt := c.expiresAt, scope := "read write" }) := by
  constructor
  · intro e he
    simp only [introspectToken, he]
  · intro c hc
    simp only [introspectToken, hc]

/-- Witness for C7: a garbage string introspects to active false with ok,
and a well-signed unexpired access token introspects to active true with
its claims. -/
theorem introspectToken_contract_witness :
    introspectToken 5 (.other "junk") =
      .ok { active := false, userID := 0, email := "", expiresAt := 0, scope := "" } ∧
    introspectToken 5 (.accessSigned demoAccessClaims) =
      .ok { active := true, userID := 42, email := "u@example.com",
            expiresAt := 100, scope := "read write" } :=
  ⟨(introspectToken_contract 5 (.other "junk")).1 "invalid token" rfl,
   (introspectToken_contract 5 (.accessSigned demoAccessClaims)).2
     demoAccessClaims rfl⟩

lemma store_any_id_eq_false (store : List RefreshTokenRecord) (n : Nat)
    (h : ∀ q ∈ store, q.id ≠ n) :
    (store.any fun q => q.id == n) = false := by
  rw [List.any_eq_false]
  intro q hq
  simpa using h q hq

lemma generateRefreshToken_eq (cfg : Config) (uid : Nat) (w : World)
    (hfresh : ∀ q ∈ w.store, q.id ≠ w.nextId + 1) :
    generateRefreshToken cfg uid w =
      (.ok (jwtGenerateRefreshToken w.now cfg.refreshExpiry uid w.nextId),
       { w with nextId := w.nextId + 2,
                store := w.store ++
                  [{ id := w.nextId + 1, userID := uid,
                     tokenHash :=
                       hashToken (jwtGenerateRefreshToken w.now cfg.refreshExpiry uid w.nextId),
                     expiresAt := w.now + refreshRecordLifetime, createdAt := w.now }],
                log := w.log ++ [Event.issuedRefresh uid (w.nextId + 1)] }) := by
  simp only [generateRefreshToken, repoCreate,
    store_any_id_eq_false w.store (w.nextId + 1) hfresh]
  rfl

lemma revokeRefreshToken_log (t : TokenString) (w : World) :
    (revokeRefreshToken t w).2.log = w.log ++ [Event.revokeAttempt t] := by
  simp only [revokeRefreshToken]
  cases h : jwtValidateRefreshToken w.now t with
  | error e => rfl
  | ok claims =>
      dsimp only
      cases h2 : repoDelete claims.tokenID w.store with
      | error e => rfl
      | ok store => rfl

/-- Claim C10: RevokeRefreshToken is atomic on failure of its parse step:
whenever JWT refresh-token validation fails (malformed, bad signature, or
expired), it returns that error and performs no deletion or other mutation
of the refresh-token store; in particular a refresh token whose embedded
expiry has passed can no longer be revoked even if its store record still
exists. -/
theorem revokeRefreshToken_pure_on_invalid (t : TokenString) (w : World) (e : String)
    (h : jwtValidateRefreshToken w.now t = .error e) :
    (revokeRefreshToken t w).1 = .error e ∧
    (revokeRefreshToken t w).2.store = w.store := by
  simp [revokeRefreshToken, h]

/-- Witness for C10: an expired refresh token whose store record is still
present; revocation returns the expiry error and leaves the store
untouched. -/
theorem revokeRefreshToken_pure_on_invalid_witness :
    jwtValidateRefreshToken wExpired.now tExpired = .error "token is expired" ∧
    (∃ q ∈ wExpired.store, q.tokenHash = hashToken tExpired) ∧
    (revokeRefreshToken tExpired wExpired).1 = .error "token is expired" ∧
    (revokeRefreshToken tExpired wExpired).2.store = wExpired.store :=
  ⟨rfl, by decide,
   (revokeRefreshToken_pure_on_invalid tExpired wExpired "token is expired" rfl).1,
   (revokeRefreshToken_pure_on_invalid tExpired wExpired "token is expired" rfl).2⟩

/-- Claim C1, evaluated at the failing input: the token issued to user 42
from a fresh world validates, but RevokeRefreshToken fails with a
not-found error and leaves the store unchanged, because it deletes by the
JWT-embedded token id (0) while the record was persisted under an
unrelated fresh uuid (1); validation still succeeds after the revocation
attempt, the first rotation succeeds, and a second rotation of the same
original token succeeds as well — contradicting the claim that revocation
invalidates the token and that rotation is non-reusable. -/
theorem revokedRefreshToken_remains_valid :
    demoIssued.1 = .ok demoTok ∧
    validateRefreshToken demoTok demoW1 =
      .ok { userID := 42, tokenID := 0, expiresAt := 605800, issuedAt := 1000,
            issuer := tokenIssuer } ∧
    (revokeRefreshToken demoTok demoW1).1 = .error "refresh token not found" ∧
    (revokeRefreshToken demoTok demoW1).2.store = demoW1.store ∧
    validateRefreshToken demoTok (revokeRefreshToken demoTok demoW1).2 =
      .ok { userID := 42, tokenID := 0, expiresAt := 605800, issuedAt := 1000,
            issuer := tokenIssuer } ∧
    (∃ resp1, demoRot1.1 = .ok resp1) ∧
    (∃ resp2, demoRot2.1 = .ok resp2) :=
  ⟨rfl, rfl, rfl, rfl, rfl, ⟨_, rfl⟩, ⟨_, rfl⟩⟩

/-- Claim C2: in AuthUseCase.RefreshToken, for every old refresh token
that validates and whose principal is active (and in any reachable store,
expressed by freshness of the uuid counter), the rotation returns the
freshly minted access and refresh pair with no error — whatever the
revocation step then does — and the event log shows both issuances before
the revocation attempt. -/
theorem authRefreshToken_issues_before_revoke (cfg : Config) (t : TokenString)
    (w : World) (claims : RefreshTokenClaims) (user : User)
    (hval : validateRefreshToken t w = .ok claims)
    (huser : userGetByID w.users claims.userID = .ok user)
    (hact : user.status = UserStatus.active)
    (hfresh : ∀ q ∈ w.store, q.id ≠ w.nextId + 1) :
    ∃ w2 : World,
      authRefreshToken cfg t w =
        (.ok { accessToken := jwtGenerateAccessToken w.now cfg.accessExpiry
                 user.id user.email,
               refreshToken := jwtGenerateRefreshToken w.now cfg.refreshExpiry
                 user.id w.nextId,
               expiresIn := 900, tokenType := "Bearer", user := user }, w2) ∧
      w2.log = w.log ++
        [Event.issuedAccess user.id, Event.issuedRefresh user.id (w.nextId + 1),
         Event.revokeAttempt t] := by
  have hcond : ¬ (user.status ≠ UserStatus.active) := by simp [hact]
  simp only [authRefreshToken, hval, huser, if_neg hcond, generateAccessToken]
  rw [generateRefreshToken_eq cfg user.id
    { store := w.store, users := w.users, nextId := w.nextId, now := w.now,
      log := w.log ++ [Event.issuedAccess user.id] } hfresh]
  dsimp only
  refine ⟨_, rfl, ?_⟩
  rw [revokeRefreshToken_log]
  simp

/-- Witness for C2: the concrete rotation of demoTok in demoW1 yields the
fresh pair with no error and the issuance events precede the revocation
attempt. -/
theorem authRefreshToken_issues_before_revoke_witness :
    ∃ w2 : World,
      authRefreshToken cfgDefault demoTok demoW1 =
        (.ok { accessToken := jwtGenerateAccessToken demoW1.now cfgDefault.accessExpiry
                 demoUser.id demoUser.email,
               refreshToken := jwtGenerateRefreshToken demoW1.now cfgDefault.refreshExpiry
                 demoUser.id demoW1.nextId,
               expiresIn := 900, tokenType := "Bearer", user := demoUser }, w2) ∧
      w2.log = demoW1.log ++
        [Event.issuedAccess demoUser.id, Event.issuedRefresh demoUser.id (demoW1.nextId + 1),
         Event.revokeAttempt demoTok] :=
  authRefreshToken_issues_before_revoke cfgDefault demoTok demoW1
    { userID := 42, tokenID := 0, expiresAt := 605800, issuedAt := 1000,
      issuer := tokenIssuer }
    demoUser rfl rfl rfl (by decide)

/-- Counterexample to claim C5: under a configured refresh lifetime of
3600 seconds, the signed token returned by IssueRefreshToken embeds expiry
3600, but the persisted record carries the hardcoded 7-day expiry 604800 —
the record expiry does not match the expiry of the signed token. -/
theorem refreshRecordExpiry_mismatch :
    (generateRefreshToken cfgShort 7 wEmpty).1 = .ok demoShortTok ∧
    jwtValidateRefreshToken 0 demoShortTok =
      .ok { userID := 7, tokenID := 0, expiresAt := 3600, issuedAt := 0,
            issuer := tokenIssuer } ∧
    (generateRefreshToken cfgShort 7 wEmpty).2.store =
      [{ id := 1, userID := 7, tokenHash := hashToken demoShortTok,
         expiresAt := 604800, createdAt := 0 }] ∧
    ∀ q ∈ (generateRefreshToken cfgShort 7 wEmpty).2.store, q.expiresAt ≠ 3600 :=
  ⟨rfl, rfl, rfl, by decide⟩

/-- Claim C5 amended: every successful IssueRefreshToken persists exactly
one RefreshToken record, whose token_hash is the SHA-256 hex digest of the
full signed token string returned to the caller (the record holds only the
digest, never the raw token: the persisted row type has no token field);
the record expires_at is a hardcoded 7 days from issuance, which equals
the expiry embedded in the signed token (the configured refresh lifetime)
exactly when the configured lifetime is the 168-hour default. -/
theorem generateRefreshToken_persists_hash (cfg : Config) (uid : Nat) (w : World)
    (hfresh : ∀ q ∈ w.store, q.id ≠ w.nextId + 1) :
    ∃ (t : TokenString) (c : RefreshTokenClaims) (w2 : World),
      generateRefreshToken cfg uid w = (.ok t, w2) ∧
      t = .refreshSigned c ∧
      c.userID = uid ∧
      c.expiresAt = w.now + cfg.refreshExpiry ∧
      w2.store = w.store ++
        [{ id := w.nextId + 1, userID := uid, tokenHash := hashToken t,
           expiresAt := w.now + refreshRecordLifetime, createdAt := w.now }] ∧
      ((w.now + refreshRecordLifetime = c.expiresAt) ↔
        cfg.refreshExpiry = refreshRecordLifetime) := by
  refine ⟨jwtGenerateRefreshToken w.now cfg.refreshExpiry uid w.nextId,
    { userID := uid, tokenID := w.nextId, expiresAt := w.now + cfg.refreshExpiry,
      issuedAt := w.now, issuer := tokenIssuer }, _,
    generateRefreshToken_eq cfg uid w hfresh, rfl, rfl, rfl, rfl, ?_⟩
  show w.now + refreshRecordLifetime = w.now + cfg.refreshExpiry ↔
    cfg.refreshExpiry = refreshRecordLifetime
  omega

/-- Witness for the amended C5: issuance from the fresh demo world under
the default configuration. -/
theorem generateRefreshToken_persists_hash_witness :
    ∃ (t : TokenString) (c : RefreshTokenClaims) (w2 : World),
      generateRefreshToken cfgDefault 42 demoWorld0 = (.ok t, w2) ∧
      t = .refreshSigned c ∧
      c.userID = 42 ∧
      c.expiresAt = demoWorld0.now + cfgDefault.refreshExpiry ∧
      w2.store = demoWorld0.store ++
        [{ id := demoWorld0.nextId + 1, userID := 42, tokenHash := hashToken t,
           expiresAt := demoWorld0.now + refreshRecordLifetime,
           createdAt := demoWorld0.now }] ∧
      ((demoWorld0.now + refreshRecordLifetime = c.expiresAt) ↔
        cfgDefault.refreshExpiry = refreshRecordLifetime) :=
  generateRefreshToken_persists_hash cfgDefault 42 demoWorld0 (by decide)

end ArasAuth
